import Mathlib

/-!
# Verification of the Financial Analytics Dashboard core pipeline

Shallow embedding of `src/finance_dashboard/app.py`: the
ingestion-normalization-and-visualization-dispatch pipeline (source adapters,
validator, column classification, chart dispatch, summary engine, and the
session-state handlers wired to the three data-source buttons).

Machine floats of the original (pandas float64) are idealized as rationals;
pandas / json library behaviour that the app consumes as an external service
(`pd.DataFrame`, `pd.read_csv`, `DataFrame.to_csv`) is modelled at the level
of already-tokenized rows and values, faithful to the documented behaviour the
app relies on.
-/

deriving instance DecidableEq for Except

namespace FinDash

/-- A JSON value, as returned by `response.json()` in `fetch_api_data`.
Numbers are idealized as rationals. -/
inductive Json where
  | null : Json
  | jbool (b : Bool) : Json
  | jnum (q : ℚ) : Json
  | jstr (s : String) : Json
  | jarr (elems : List Json) : Json
  | jobj (fields : List (String × Json)) : Json

mutual

/-- Decidable equality for `Json` (written by hand: `deriving` does not handle
the nested `List` occurrences). -/
def Json.decEq : (a b : Json) → Decidable (a = b)
  | .null, .null => .isTrue rfl
  | .jbool a, .jbool b =>
    if h : a = b then .isTrue (h ▸ rfl)
    else .isFalse fun hh => h (Json.jbool.inj hh)
  | .jnum a, .jnum b =>
    if h : a = b then .isTrue (h ▸ rfl)
    else .isFalse fun hh => h (Json.jnum.inj hh)
  | .jstr a, .jstr b =>
    if h : a = b then .isTrue (h ▸ rfl)
    else .isFalse fun hh => h (Json.jstr.inj hh)
  | .jarr a, .jarr b =>
    match Json.decEqList a b with
    | .isTrue h => .isTrue (h ▸ rfl)
    | .isFalse h => .isFalse fun hh => h (Json.jarr.inj hh)
  | .jobj a, .jobj b =>
    match Json.decEqFields a b with
    | .isTrue h => .isTrue (h ▸ rfl)
    | .isFalse h => .isFalse fun hh => h (Json.jobj.inj hh)
  | .null, .jbool _ => .isFalse fun h => Json.noConfusion h
  | .null, .jnum _ => .isFalse fun h => Json.noConfusion h
  | .null, .jstr _ => .isFalse fun h => Json.noConfusion h
  | .null, .jarr _ => .isFalse fun h => Json.noConfusion h
  | .null, .jobj _ => .isFalse fun h => Json.noConfusion h
  | .jbool _, .null => .isFalse fun h => Json.noConfusion h
  | .jbool _, .jnum _ => .isFalse fun h => Json.noConfusion h
  | .jbool _, .jstr _ => .isFalse fun h => Json.noConfusion h
  | .jbool _, .jarr _ => .isFalse fun h => Json.noConfusion h
  | .jbool _, .jobj _ => .isFalse fun h => Json.noConfusion h
  | .jnum _, .null => .isFalse fun h => Json.noConfusion h
  | .jnum _, .jbool _ => .isFalse fun h => Json.noConfusion h
  | .jnum _, .jstr _ => .isFalse fun h => Json.noConfusion h
  | .jnum _, .jarr _ => .isFalse fun h => Json.noConfusion h
  | .jnum _, .jobj _ => .isFalse fun h => Json.noConfusion h
  | .jstr _, .null => .isFalse fun h => Json.noConfusion h
  | .jstr _, .jbool _ => .isFalse fun h => Json.noConfusion h
  | .jstr _, .jnum _ => .isFalse fun h => Json.noConfusion h
  | .jstr _, .jarr _ => .isFalse fun h => Json.noConfusion h
  | .jstr _, .jobj _ => .isFalse fun h => Json.noConfusion h
  | .jarr _, .null => .isFalse fun h => Json.noConfusion h
  | .jarr _, .jbool _ => .isFalse fun h => Json.noConfusion h
  | .jarr _, .jnum _ => .isFalse fun h => Json.noConfusion h
  | .jarr _, .jstr _ => .isFalse fun h => Json.noConfusion h
  | .jarr _, .jobj _ => .isFalse fun h => Json.noConfusion h
  | .jobj _, .null => .isFalse fun h => Json.noConfusion h
  | .jobj _, .jbool _ => .isFalse fun h => Json.noConfusion h
  | .jobj _, .jnum _ => .isFalse fun h => Json.noConfusion h
  | .jobj _, .jstr _ => .isFalse fun h => Json.noConfusion h
  | .jobj _, .jarr _ => .isFalse fun h => Json.noConfusion h

/-- Decidable equality for lists of `Json`. -/
def Json.decEqList : (a b : List Json) → Decidable (a = b)
  | [], [] => .isTrue rfl
  | [], _ :: _ => .isFalse fun h => List.noConfusion h
  | _ :: _, [] => .isFalse fun h => List.noConfusion h
  | x :: xs, y :: ys =>
    match Json.decEq x y with
    | .isTrue h1 =>
      match Json.decEqList xs ys with
      | .isTrue h2 => .isTrue (h1 ▸ h2 ▸ rfl)
      | .isFalse h2 => .isFalse fun hh => h2 (List.cons.inj hh).2
    | .isFalse h1 => .isFalse fun hh => h1 (List.cons.inj hh).1

/-- Decidable equality for JSON object field lists. -/
def Json.decEqFields : (a b : List (String × Json)) → Decidable (a = b)
  | [], [] => .isTrue rfl
  | [], _ :: _ => .isFalse fun h => List.noConfusion h
  | _ :: _, [] => .isFalse fun h => List.noConfusion h
  | (k1, v1) :: xs, (k2, v2) :: ys =>
    if hk : k1 = k2 then
      match Json.decEq v1 v2 with
      | .isTrue hv =>
        match Json.decEqFields xs ys with
        | .isTrue h2 => .isTrue (hk ▸ hv ▸ h2 ▸ rfl)
        | .isFalse h2 => .isFalse fun hh => h2 (List.cons.inj hh).2
      | .isFalse hv =>
        .isFalse fun hh => hv (congrArg Prod.snd (List.cons.inj hh).1)
    else
      .isFalse fun hh => hk (congrArg Prod.fst (List.cons.inj hh).1)

end

instance : DecidableEq Json := Json.decEq

/-- A scalar cell of a normalized tabular Dataset.  `null` models pandas
`NaN`/`None` cells; nested JSON values (dicts/lists stored in object columns
by `pd.DataFrame`) are carried as `nested`. -/
inductive Value where
  | null : Value
  | vbool (b : Bool) : Value
  | vint (n : ℤ) : Value
  | vnum (q : ℚ) : Value
  | vstr (s : String) : Value
  | nested (j : Json) : Value
deriving DecidableEq

/-- The pandas dtype of a column, at the granularity the app inspects it:
`df.select_dtypes(include=['number'])`, `include=['datetime64']`,
`include=['object']`; every other dtype (bool, category, ...) is `otherDtype`. -/
inductive DType where
  | number : DType
  | datetime64 : DType
  | object : DType
  | otherDtype : DType
deriving DecidableEq

/-- One named column of a Dataset: a dtype and an ordered list of cells. -/
structure Column where
  name : String
  dtype : DType
  values : List Value
deriving DecidableEq

/-- A normalized Dataset (a pandas DataFrame): ordered named columns plus the
row count (`len(df)`, the length of the index, which pandas keeps even when
there are zero columns). -/
structure Dataset where
  cols : List Column
  nrows : Nat
deriving DecidableEq

/-- The list of column names, `df.columns`. -/
def Dataset.colNames (d : Dataset) : List String :=
  d.cols.map Column.name

/-- Membership test `'c' in df.columns`. -/
def Dataset.hasCol (d : Dataset) (c : String) : Bool :=
  d.colNames.contains c

/-- Emptiness test `df.empty`: true when either axis has length zero. -/
def Dataset.isEmpty (d : Dataset) : Bool :=
  d.nrows = 0 || d.cols.isEmpty

/-! ## Column classification

The app classifies columns by dtype, via
`df.select_dtypes(include=['number'])` (line 224),
`df.select_dtypes(include=['datetime64'])` (line 225) and
`df.select_dtypes(include=['object'])` (lines 296 and 304). -/

/-- The columns `df.select_dtypes(include=['number'])` keeps. -/
def numericColumns (d : Dataset) : List Column :=
  d.cols.filter (fun c => c.dtype == DType.number)

/-- The columns `df.select_dtypes(include=['datetime64'])` keeps. -/
def datetimeColumns (d : Dataset) : List Column :=
  d.cols.filter (fun c => c.dtype == DType.datetime64)

/-- The columns `df.select_dtypes(include=['object'])` keeps. -/
def objectColumns (d : Dataset) : List Column :=
  d.cols.filter (fun c => c.dtype == DType.object)

/-- The columns none of the three `select_dtypes` calls keeps. -/
def unsupportedColumns (d : Dataset) : List Column :=
  d.cols.filter (fun c => c.dtype == DType.otherDtype)

/-- Names `df.select_dtypes(include=['number']).columns.tolist()` (app.py line 224). -/
def numericCols (d : Dataset) : List String :=
  (numericColumns d).map Column.name

/-- Names `df.select_dtypes(include=['datetime64']).columns.tolist()` (app.py line 225). -/
def datetimeCols (d : Dataset) : List String :=
  (datetimeColumns d).map Column.name

/-- Names `df.select_dtypes(include=['object']).columns.tolist()` (app.py lines 296, 304). -/
def objectCols (d : Dataset) : List String :=
  (objectColumns d).map Column.name

/-- The semantic tag of the spec's ColumnClassification. -/
inductive Tag where
  | Numeric : Tag
  | Temporal : Tag
  | Categorical : Tag
  | Unsupported : Tag
deriving DecidableEq

/-- The tag a column receives, as determined by the dtype-based detection the
app performs: `number` dtypes are chart/statistics (Numeric) columns,
`datetime64` are x-axis (Temporal) columns, `object` are free-form
text/grouping (Categorical) columns; every other dtype is picked up by none
of the three `select_dtypes` calls (Unsupported). -/
def columnTag (c : Column) : Tag :=
  match c.dtype with
  | .number => .Numeric
  | .datetime64 => .Temporal
  | .object => .Categorical
  | .otherDtype => .Unsupported

/-- The spec's `ColumnClassifier.classify`: the mapping from column name to tag. -/
def classifyDataset (d : Dataset) : List (String × Tag) :=
  d.cols.map (fun c => (c.name, columnTag c))

/-! ## Chart dispatch (the Charts tab, app.py lines 220-344) -/

/-- Generic chart types offered by the chart-type selectbox (line 282). -/
inductive ChartType where
  | line : ChartType
  | bar : ChartType
  | scatter : ChartType
  | area : ChartType
deriving DecidableEq

/-- The primary price chart of the yFinance branch (lines 231-250). -/
inductive PriceChart where
  | candlestick (x o h l c : String) : PriceChart
  | closeLine (x y : String) : PriceChart
deriving DecidableEq

/-- A fully resolved generic chart (lines 312-332). -/
structure GenericChart where
  kind : ChartType
  x : String
  y : String
  color : Option String
deriving DecidableEq

/-- What the Charts tab renders: the domain-specific price view (candlestick
or Close line, plus an optional Volume bar chart over Date), a generic
user-driven chart, or the "No numeric columns available for visualization"
notice (line 344). -/
inductive ChartsView where
  | price (main : PriceChart) (volumeColumn : Option String) : ChartsView
  | generic (g : GenericChart) : ChartsView
  | noNumericColumnsInfo : ChartsView
deriving DecidableEq

/-- Test `all(col in df.columns for col in ['Open', 'High', 'Low', 'Close'])`
(app.py line 234). -/
def ohlcPresent (d : Dataset) : Bool :=
  ["Open", "High", "Low", "Close"].all (fun c => d.hasCol c)

/-- The primary price chart of the yFinance branch: a candlestick over
`x=df['Date']` when all four OHLC columns are present (lines 235-242),
otherwise a line on `Close` over `x=df['Date']` (lines 244-250). -/
def priceChart (d : Dataset) : PriceChart :=
  if ohlcPresent d then .candlestick "Date" "Open" "High" "Low" "Close"
  else .closeLine "Date" "Close"

/-- The value a streamlit selectbox yields: the user's stored choice when it
is still among the options, otherwise the first option (no explicit index is
passed, so the default is index 0). -/
def selectValue (options : List String) (choice : Option String) : Option String :=
  match choice with
  | some c => if options.contains c then some c else options.head?
  | none => options.head?

/-- The user's selections on the generic chart builder; `none` means the user
has not interacted with that selectbox yet. -/
structure UserChoice where
  chartType : ChartType
  yColumn : Option String
  xColumn : Option String
  colorBy : Option String

/-- Options of the x-axis selectbox (line 296):
`datetime_cols + numeric_cols + df.select_dtypes(include=['object'])`. -/
def xOptions (d : Dataset) : List String :=
  datetimeCols d ++ numericCols d ++ objectCols d

/-- Options of the color-by selectbox (line 304): the sentinel `"None"`
followed by the object-dtype columns. -/
def colorOptions (d : Dataset) : List String :=
  "None" :: objectCols d

/-- The y-axis column in effect when the user has made no choice: first
option of the y-axis selectbox, i.e. the first numeric column. -/
def defaultYColumn (d : Dataset) : Option String :=
  (numericCols d).head?

/-- The x-axis column in effect when the user has made no choice: first
option of the x-axis selectbox. -/
def defaultXColumn (d : Dataset) : Option String :=
  (xOptions d).head?

/-- The generic chart built from the current selectbox values
(lines 278-332); the color keyword is `None` exactly when the color-by
selectbox holds the `"None"` sentinel (lines 316, 321, 326, 331). -/
def genericChart (d : Dataset) (choice : UserChoice) : GenericChart :=
  { kind := choice.chartType
    y := (selectValue (numericCols d) choice.yColumn).getD ""
    x := (selectValue (xOptions d) choice.xColumn).getD ""
    color :=
      match (selectValue (colorOptions d) choice.colorBy).getD "None" with
      | "None" => none
      | c => some c }

/-- The Charts tab (lines 220-344): the yFinance price branch fires when
`st.session_state.data_source == "yFinance" and 'Close' in df.columns`
(line 228); otherwise the generic builder runs if any numeric column exists
(line 278), else the no-numeric-columns notice is shown (line 344). -/
def chartsTab (dataSource : String) (d : Dataset) (choice : UserChoice) : ChartsView :=
  if dataSource == "yFinance" && d.hasCol "Close" then
    .price (priceChart d) (if d.hasCol "Volume" then some "Volume" else none)
  else if !(numericCols d).isEmpty then
    .generic (genericChart d choice)
  else
    .noNumericColumnsInfo

/-! ## Validator and session state -/

/-- The Validator `validate_dataframe` (app.py lines 60-65): false — with a user-visible
warning — when the DataFrame is absent (`None`) or `df.empty` holds. -/
def validate_dataframe (df : Option Dataset) : Bool :=
  match df with
  | none => false
  | some d => !d.isEmpty

/-- Contents of `st.session_state.ticker_data` (lines 103-106). -/
structure TickerData where
  ticker : String
  period : String
deriving DecidableEq

/-- The session state the app threads between interactions: the loaded
DataFrame, its source tag, and the yFinance ticker info (lines 17-19). -/
structure SessionState where
  df : Option Dataset
  data_source : Option String
  ticker_data : Option TickerData
deriving DecidableEq

/-- Initial session state (lines 17-19: all three keys default to empty). -/
def initialState : SessionState :=
  { df := none, data_source := none, ticker_data := none }

/-- The error taxonomy of ingestion failures.  In the source these surface as
caught exceptions turned into `st.error` calls plus a `None` return. -/
inductive IngestError where
  | fetchError : IngestError
  | timeoutError : IngestError
  | httpError : IngestError
  | parseError : IngestError
  | unsupportedShape : IngestError
deriving DecidableEq

/-! ## JSON API adapter (`fetch_api_data`, app.py lines 36-58)

`pd.DataFrame` over a list of dicts is consumed as an external service; its
documented behaviour is modelled here: one row per dict, columns in order of
first appearance of each key, missing keys filled with `NaN` (`Value.null`;
pandas' `NaN`/`None` cells are conflated as `null`). -/

/-- Whether a JSON value is an object (a Python `dict`). -/
def Json.isObj : Json → Bool
  | .jobj _ => true
  | _ => false

/-- The fields of a JSON object (`[]` on non-objects). -/
def Json.objFields : Json → List (String × Json)
  | .jobj fields => fields
  | _ => []

/-- A JSON value stored into a DataFrame cell: scalars become scalar cells,
nested lists/objects are kept as Python objects. -/
def jsonCell : Json → Value
  | .null => .null
  | .jbool b => .vbool b
  | .jnum q => .vnum q
  | .jstr s => .vstr s
  | .jarr es => .nested (.jarr es)
  | .jobj fs => .nested (.jobj fs)

/-- The column set `pd.DataFrame(list_of_dicts)` produces: the union of the
rows' keys, in order of first appearance, without duplicates. -/
def unionKeys (rows : List (List (String × Json))) : List String :=
  rows.foldl
    (fun acc fields =>
      (fields.map Prod.fst).foldl
        (fun a k => if a.contains k then a else a ++ [k]) acc)
    []

/-- The pandas dtype inferred for a column built from Python values: numeric
when every cell is a number or a missing value, `bool` (neither number nor
object nor datetime, hence `otherDtype`) when every cell is a bool, object
otherwise. -/
def inferDType (cells : List Value) : DType :=
  if cells.all (fun v => match v with | .null => true | .vnum _ => true | .vint _ => true | _ => false) then
    .number
  else if cells.all (fun v => match v with | .vbool _ => true | _ => false) then
    .otherDtype
  else
    .object

/-- Behaviour of `pd.DataFrame(data)` for a list of dicts (app.py line 45): one row per
dict; each column holds the looked-up value, `NaN` where the key is missing. -/
def recordsToDataset (rows : List (List (String × Json))) : Dataset :=
  { cols := (unionKeys rows).map (fun k =>
      { name := k
        dtype := inferDType (rows.map (fun fields =>
          match fields.lookup k with
          | some j => jsonCell j
          | none => Value.null))
        values := rows.map (fun fields =>
          match fields.lookup k with
          | some j => jsonCell j
          | none => Value.null) })
    nrows := rows.length }

/-- Whether a JSON value is an array (a Python `list`). -/
def Json.isArr : Json → Bool
  | .jarr _ => true
  | _ => false

/-- The elements of a JSON array (`[]` on non-arrays). -/
def Json.arrElems : Json → List Json
  | .jarr elems => elems
  | _ => []

/-- Behaviour of `pd.DataFrame(data)` for a list of lists: the inner lists
are spread positionally, one column per inner index from `0` to the longest
inner length minus one (pandas labels them `0, 1, ...`; labels are idealized
as strings here as everywhere in this model), and rows shorter than the
widest one are filled with `NaN`. -/
def listsToDataset (rowsJ : List (List Json)) : Dataset :=
  { cols := (List.range ((rowsJ.map List.length).foldr max 0)).map (fun j =>
      { name := toString j
        dtype := inferDType (rowsJ.map (fun row =>
          match row[j]? with
          | some v => jsonCell v
          | none => Value.null))
        values := rowsJ.map (fun row =>
          match row[j]? with
          | some v => jsonCell v
          | none => Value.null) })
    nrows := rowsJ.length }

/-- Behaviour of `pd.DataFrame(data)` for a list of scalar values: a single
positional column (pandas names it `0`).  This constructor also stands in
for mixed lists (some dicts or lists among scalars), whose pandas behaviour
is irregular; no statement below quantifies over that mixed region. -/
def listToColumnDataset (elems : List Json) : Dataset :=
  let cells := elems.map jsonCell
  { cols := [{ name := "0", dtype := inferDType cells, values := cells }]
    nrows := elems.length }

/-- The adapter `fetch_api_data` (app.py lines 36-58).  The argument is the outcome of
`requests.get(url, timeout=30)` + `raise_for_status()` + `response.json()`:
an `IngestError` when the request timed out, failed transport/status or the
body did not parse, otherwise the decoded JSON value.  Any top-level list is
handed to `pd.DataFrame(data)` (line 44: `isinstance(data, list)` — whether
or not the elements are objects): a list of objects becomes one row per
object, a list of lists is spread positionally, a list of scalars becomes a
single positional column; a single object becomes exactly one row (line 47:
`pd.DataFrame([data])`); only a top-level value that is neither a list nor
an object hits the `"API response format not supported"` branch
(lines 48-50), which we model as `unsupportedShape` (the code shows
`st.error` and returns `None`). -/
def fetch_api_data (response : Except IngestError Json) : Except IngestError Dataset :=
  match response with
  | .error e => .error e
  | .ok data =>
    match data with
    | .jarr elems =>
      if elems.all Json.isObj then
        .ok (recordsToDataset (elems.map Json.objFields))
      else if elems.all Json.isArr then
        .ok (listsToDataset (elems.map Json.arrElems))
      else
        .ok (listToColumnDataset elems)
    | .jobj fields => .ok (recordsToDataset [fields])
    | _ => .error .unsupportedShape

/-! ## The three ingestion button handlers (sidebar, app.py lines 67-149) -/

/-- The yFinance fetch button handler (lines 97-107): on a successful fetch
of a non-`None`, non-empty DataFrame the three session keys are assigned;
otherwise — an exception was caught in `fetch_yfinance_data` (returning
`None`) or the frame is empty — the session is left untouched.  `fetched` is
the value `fetch_yfinance_data(ticker.upper(), period)` returned, with the
caught-exception case as an error. -/
def handleYFinanceFetch (s : SessionState) (ticker period : String)
    (fetched : Except IngestError Dataset) : SessionState :=
  match fetched with
  | .error _ => s
  | .ok df =>
    if !df.isEmpty then
      { df := some df
        data_source := some "yFinance"
        ticker_data := some { ticker := ticker.toUpper, period := period } }
    else s

/-- The API fetch button handler (lines 120-129): skipped entirely when the
URL field is blank (only a warning is shown); otherwise the result of
`fetch_api_data` is stored when it is a non-`None`, non-empty DataFrame. -/
def handleApiFetch (s : SessionState) (url : String)
    (response : Except IngestError Json) : SessionState :=
  if url == "" then s
  else
    match fetch_api_data response with
    | .error _ => s
    | .ok df =>
      if !df.isEmpty then
        { s with df := some df, data_source := some "API" }
      else s

/-- The CSV upload handler (lines 142-149): `pd.read_csv` output is stored
unconditionally — note there is no emptiness check on this path — and a
parse exception leaves the session untouched. -/
def handleCsvUpload (s : SessionState)
    (parsed : Except IngestError Dataset) : SessionState :=
  match parsed with
  | .error _ => s
  | .ok df => { s with df := some df, data_source := some "CSV" }

/-- One user interaction that can mutate the session: a button press on one
of the three sources, together with the outcome of the external fetch/parse
it triggers. -/
inductive Event where
  | fetchYFinance (ticker period : String) (result : Except IngestError Dataset) : Event
  | fetchApi (url : String) (response : Except IngestError Json) : Event
  | uploadCsv (filename : String) (parsed : Except IngestError Dataset) : Event

/-- Dispatch of one event to its handler. -/
def step (s : SessionState) : Event → SessionState
  | .fetchYFinance t p r => handleYFinanceFetch s t p r
  | .fetchApi u r => handleApiFetch s u r
  | .uploadCsv _ r => handleCsvUpload s r

/-- A whole interactive session: the fold of `step` over the event trace. -/
def run (s : SessionState) (events : List Event) : SessionState :=
  events.foldl step s

/-- What the main area renders (app.py lines 155 and 409): the dashboard when
a DataFrame is present and validates; the welcome screen when none is
present; and, when a DataFrame is present but fails validation, the
validator's warning followed by the welcome screen. -/
inductive View where
  | welcome : View
  | warnedWelcome : View
  | dashboard : View
deriving DecidableEq

/-- The guard `if st.session_state.df is not None and validate_dataframe(...)`
(app.py line 155). -/
def mainView (s : SessionState) : View :=
  match s.df with
  | none => .welcome
  | some d => if validate_dataframe (some d) then .dashboard else .warnedWelcome

/-! ## CSV adapter (`pd.read_csv`, line 144; `to_csv(index=False)`, line 208)

Both are consumed as external services.  They are modelled at the level of
already-tokenized rows of cell strings: the delimiter/quoting layer is the
external parsing primitive the spec excludes from the core.  Per the spec's
adapter contract, inconsistent column counts are a `ParseError`; the
duplicate-header case the spec leaves open is rejected here.  Numeric type
inference is modelled for integer cells (pandas `int64`); float64 cells are
outside the modelled fragment and read as text. -/

/-- Decimal digit characters of a natural number, most significant first. -/
def natChars (n : Nat) : List Char :=
  if n = 0 then ['0']
  else ((Nat.digits 10 n).map (fun d => Char.ofNat (48 + d))).reverse

/-- Decimal rendering of an integer, as `str`/`to_csv` print an `int64`. -/
def intChars (n : Int) : List Char :=
  if n < 0 then '-' :: natChars n.natAbs else natChars n.natAbs

/-- Parse a non-empty all-digit character list as a natural number. -/
def parseNatDigits? (cs : List Char) : Option Nat :=
  if cs = [] then none
  else if cs.all Char.isDigit then
    some (Nat.ofDigits 10 ((cs.map (fun c => c.toNat - 48)).reverse))
  else none

/-- Parse a cell as an integer: an optional leading minus sign followed by
decimal digits (the integer fragment of pandas' numeric inference). -/
def parseIntCell? (s : String) : Option Int :=
  match s.data with
  | [] => none
  | c :: cs =>
    if c = '-' then (parseNatDigits? cs).map (fun m => -(m : Int))
    else (parseNatDigits? (c :: cs)).map (fun m => (m : Int))

/-- Whether a tokenized CSV column is numeric: every cell is blank (pandas
reads it as `NaN`) or an integer literal. -/
def csvColIsNumeric (cells : List String) : Bool :=
  cells.all (fun s => s == "" || (parseIntCell? s).isSome)

/-- The column `pd.read_csv` builds from one tokenized cell column: with no
data rows pandas leaves the dtype `object`; an all-integer-or-blank column
becomes numeric with blanks as `NaN`; anything else is an object column of
the cell texts, with blanks as `NaN`. -/
def csvColumn (name : String) (cells : List String) : Column :=
  if cells.isEmpty then { name := name, dtype := .object, values := [] }
  else if csvColIsNumeric cells then
    { name := name
      dtype := .number
      values := cells.map (fun s =>
        match parseIntCell? s with
        | some n => Value.vint n
        | none => Value.null) }
  else
    { name := name
      dtype := .object
      values := cells.map (fun s => if s == "" then Value.null else Value.vstr s) }

/-- Validity of a tokenized CSV stream, per the adapter contract: a header
row exists and is non-empty, rows have consistent column counts, and (the
policy chosen for the spec's open question) header names are distinct. -/
def CsvValid (rows : List (List String)) : Prop :=
  match rows with
  | [] => False
  | header :: body =>
    header ≠ [] ∧ header.Nodup ∧ ∀ r ∈ body, r.length = header.length

instance : ∀ rows, Decidable (CsvValid rows)
  | [] => by unfold CsvValid; exact inferInstance
  | _ :: _ => by unfold CsvValid; exact inferInstance

/-- Behaviour of `pd.read_csv` over a tokenized stream: the first row is the header, each
further row is one record; malformed input raises (the handler catches it),
modelled as `parseError`. -/
def read_csv (rows : List (List String)) : Except IngestError Dataset :=
  match rows with
  | [] => .error .parseError
  | header :: body =>
    if CsvValid (header :: body) then
      .ok { cols := (List.range header.length).map (fun j =>
              csvColumn (header.getD j "") (body.map (fun r => r.getD j "")))
            nrows := body.length }
    else .error .parseError

/-- How `to_csv` prints one cell: `NaN` as the empty field, `int64` values in
decimal, text as itself, bools in Python capitalization.  Non-integer
rationals stand in for float64 cells, whose shortest-roundtrip `repr`
printing is outside the modelled fragment; they are rendered as
`numerator/denominator` here.  Nested objects print as a fixed token. -/
def printCsvCell : Value → String
  | .null => ""
  | .vint n => ⟨intChars n⟩
  | .vnum q => if q.den = 1 then ⟨intChars q.num⟩ else ⟨intChars q.num ++ '/' :: natChars q.den⟩
  | .vstr s => s
  | .vbool b => if b then "True" else "False"
  | .nested _ => "object"

/-- Export `df.to_csv(index=False)` with every column selected (app.py line 208),
as tokenized rows: the header row of column names followed by one printed
row per record. -/
def exportCsv (d : Dataset) : List (List String) :=
  d.colNames ::
    (List.range d.nrows).map (fun i =>
      d.cols.map (fun c => printCsvCell (c.values.getD i Value.null)))

/-! ## Summary engine (the Statistics tab, app.py lines 346-407) -/

/-- The numeric entries of a column, with `NaN` cells dropped, as pandas
reductions skip missing values. -/
def numericEntries (c : Column) : List ℚ :=
  c.values.filterMap (fun v =>
    match v with
    | .vint n => some (n : ℚ)
    | .vnum q => some q
    | _ => none)

/-- Arithmetic mean (`0` on the empty list, where pandas reports `NaN`). -/
def qmean (xs : List ℚ) : ℚ :=
  xs.sum / (xs.length : ℚ)

/-- Sample variance with `n - 1` in the denominator, as pandas `describe`
uses; the `std` row of `describe` is its square root. -/
def qvar (xs : List ℚ) : ℚ :=
  ((xs.map (fun x => (x - qmean xs) ^ 2)).sum) / ((xs.length - 1 : ℤ) : ℚ)

/-- Quantile with linear interpolation (the pandas/numpy default): index
`(n - 1) * p` into the sorted data, interpolating between neighbours. -/
def quantile (xs : List ℚ) (p : ℚ) : ℚ :=
  let s := List.insertionSort (· ≤ ·) xs
  if s = [] then 0
  else
    let h : ℚ := ((s.length - 1 : ℤ) : ℚ) * p
    let i : Nat := ⌊h⌋.toNat
    let lo := s.getD i 0
    let hi := s.getD (i + 1) lo
    lo + (h - (i : ℚ)) * (hi - lo)

/-- The rows of `df[numeric_cols].describe()` for one column (count, mean,
std, min, 25%, 50%, 75%, max); `std` is kept as the sample variance `var`,
of which the printed standard deviation is the square root. -/
structure DescStats where
  count : Nat
  mean : ℚ
  var : ℚ
  min : ℚ
  q25 : ℚ
  q50 : ℚ
  q75 : ℚ
  max : ℚ
deriving DecidableEq

/-- Statistics `describe` computes for one numeric column. -/
def describeColumn (c : Column) : DescStats :=
  let xs := numericEntries c
  { count := xs.length
    mean := qmean xs
    var := qvar xs
    min := quantile xs 0
    q25 := quantile xs (1/4)
    q50 := quantile xs (1/2)
    q75 := quantile xs (3/4)
    max := quantile xs 1 }

/-- Row-aligned pairs of numeric entries of two columns with incomplete
pairs dropped, as pandas `corr` handles missing values pairwise. -/
def pairedEntries (v1 v2 : List Value) : List (ℚ × ℚ) :=
  (List.zip v1 v2).filterMap (fun p =>
    match p with
    | (.vint a, .vint b) => some ((a : ℚ), (b : ℚ))
    | (.vint a, .vnum b) => some ((a : ℚ), b)
    | (.vnum a, .vint b) => some (a, (b : ℚ))
    | (.vnum a, .vnum b) => some (a, b)
    | _ => none)

/-- The Pearson correlation of `df.corr`, recoded rationally as `r * |r|`
(its sign times its square): `r` itself divides by a product of square
roots, and `r ↦ r * |r|` is injective on `[-1, 1]`, so no information is
lost by staying in `ℚ`. -/
def pearsonSigned (ps : List (ℚ × ℚ)) : ℚ :=
  let mx := qmean (ps.map Prod.fst)
  let my := qmean (ps.map Prod.snd)
  let cov := (ps.map (fun p => (p.1 - mx) * (p.2 - my))).sum
  let vx := (ps.map (fun p => (p.1 - mx) ^ 2)).sum
  let vy := (ps.map (fun p => (p.2 - my) ^ 2)).sum
  cov * |cov| / (vx * vy)

/-- The matrix `df[numeric_cols].corr()` (app.py line 393): pairwise
Pearson correlations over the numeric columns. -/
def corrMatrix (d : Dataset) : List (List ℚ) :=
  let ncols := d.cols.filter (fun c => c.dtype == DType.number)
  ncols.map (fun c1 => ncols.map (fun c2 =>
    pearsonSigned (pairedEntries c1.values c2.values)))

/-- What the Statistics tab computes (app.py lines 346-407): nothing but an
informational notice when there is no numeric column (line 407); otherwise
`describe` over every numeric column (line 352), plus the correlation
matrix exactly when more than one numeric column exists (lines 391-393). -/
structure SummaryView where
  stats : Option (List (String × DescStats))
  corr : Option (List (List ℚ))
deriving DecidableEq

/-- The Statistics tab. -/
def summaryTab (d : Dataset) : SummaryView :=
  if (numericCols d).isEmpty then { stats := none, corr := none }
  else
    { stats := some ((numericColumns d).map (fun c => (c.name, describeColumn c)))
      corr := if (numericCols d).length > 1 then some (corrMatrix d) else none }

/-! ## Accessors and bookkeeping used by the statements -/

/-- The primary chart of the Charts tab, when the yFinance branch fired. -/
def ChartsView.mainPrice : ChartsView → Option PriceChart
  | .price main _ => some main
  | _ => none

/-- The column names the Statistics tab reports descriptive statistics for. -/
def summaryStatKeys (v : SummaryView) : List String :=
  (v.stats.getD []).map Prod.fst

/-- The default x-axis column as the spec sentence words it: the first
Temporal column if one exists, else the first Numeric column other than the
default `y_column`.  Stated for comparison against `defaultXColumn`, the one
the code yields. -/
def claimedDefaultXColumn (d : Dataset) : Option String :=
  match datetimeCols d with
  | t :: _ => some t
  | [] =>
    match defaultYColumn d with
    | some y => ((numericCols d).filter (fun c => c != y)).head?
    | none => none

/-- The ingestion error behind an event, if its fetch/parse attempt failed:
for the API source this is the composed adapter outcome, so it covers
timeout, HTTP and unsupported-shape failures alike. -/
def eventError : Event → Option IngestError
  | .fetchYFinance _ _ (.error e) => some e
  | .fetchYFinance _ _ (.ok _) => none
  | .fetchApi _ response =>
    match fetch_api_data response with
    | .error e => some e
    | .ok _ => none
  | .uploadCsv _ (.error e) => some e
  | .uploadCsv _ (.ok _) => none

/-- The dataset-and-source pair an event writes into the session, if any:
a yFinance or API result is stored only when present and non-empty, a CSV
parse result is stored whenever parsing succeeded. -/
def storeOf : Event → Option (Dataset × String)
  | .fetchYFinance _ _ (.ok d) => if !d.isEmpty then some (d, "yFinance") else none
  | .fetchYFinance _ _ (.error _) => none
  | .fetchApi url response =>
    if url == "" then none
    else
      match fetch_api_data response with
      | .ok d => if !d.isEmpty then some (d, "API") else none
      | .error _ => none
  | .uploadCsv _ (.ok d) => some (d, "CSV")
  | .uploadCsv _ (.error _) => none

/-- The last stored dataset-and-source pair of a trace, if any event of the
trace stored one. -/
def lastStore : List Event → Option (Dataset × String)
  | [] => none
  | e :: rest =>
    match lastStore rest with
    | some p => some p
    | none => storeOf e

/-! ## Concrete sample data for witnesses and counterexamples -/

/-- A 2-row OHLCV frame as `fetch_yfinance_data` returns. -/
def yfSample : Dataset :=
  { cols := [
      { name := "Date", dtype := .datetime64, values := [.vstr "2026-01-02", .vstr "2026-01-05"] },
      { name := "Open", dtype := .number, values := [.vnum 10, .vnum 11] },
      { name := "High", dtype := .number, values := [.vnum 12, .vnum 13] },
      { name := "Low", dtype := .number, values := [.vnum 9, .vnum 10] },
      { name := "Close", dtype := .number, values := [.vnum 11, .vnum 12] },
      { name := "Volume", dtype := .number, values := [.vnum 1000, .vnum 1200] }]
    nrows := 2 }

/-- Copy of `yfSample` with its `Open` column dropped. -/
def yfNoOpen : Dataset :=
  { cols := yfSample.cols.filter (fun c => c.name != "Open"), nrows := 2 }

/-- A zero-row frame with the yFinance column layout, as a fetch over a
period with no trading data yields. -/
def yfEmpty : Dataset :=
  { cols := [
      { name := "Date", dtype := .datetime64, values := [] },
      { name := "Open", dtype := .number, values := [] },
      { name := "High", dtype := .number, values := [] },
      { name := "Low", dtype := .number, values := [] },
      { name := "Close", dtype := .number, values := [] },
      { name := "Volume", dtype := .number, values := [] }]
    nrows := 0 }

/-- A frame with two numeric columns and nothing else. -/
def twoNumeric : Dataset :=
  { cols := [
      { name := "A", dtype := .number, values := [.vnum 1, .vnum 2] },
      { name := "B", dtype := .number, values := [.vnum 3, .vnum 5] }]
    nrows := 2 }

/-- A frame with one row and zero columns (`pd.DataFrame([{}])`). -/
def oneRowNoCols : Dataset :=
  { cols := [], nrows := 1 }

/-- A zero-row frame as parsed from a header-only CSV upload. -/
def emptyCsvFrame : Dataset :=
  { cols := [{ name := "a", dtype := .object, values := [] }], nrows := 0 }

/-! ## C1: OHLC dispatch on the yFinance branch -/

/-- C1: for every loaded Dataset whose source kind is yFinance (TimeSeries)
and that contains a `Close` column, the Charts tab emits the candlestick/OHLC
chart if and only if all four of Open/High/Low/Close are present; if any of
the four is absent it emits the single line series on `Close` instead; in
both cases the x-axis is `Date` (both chart specs carry `x = "Date"`). -/
theorem C1_ohlc_dispatch (d : Dataset) (choice : UserChoice)
    (hclose : d.hasCol "Close" = true) :
    ((chartsTab "yFinance" d choice).mainPrice =
        some (.candlestick "Date" "Open" "High" "Low" "Close") ↔
      (d.hasCol "Open" = true ∧ d.hasCol "High" = true ∧
        d.hasCol "Low" = true ∧ d.hasCol "Close" = true)) ∧
    (¬(d.hasCol "Open" = true ∧ d.hasCol "High" = true ∧
        d.hasCol "Low" = true ∧ d.hasCol "Close" = true) →
      (chartsTab "yFinance" d choice).mainPrice = some (.closeLine "Date" "Close")) := by
  have hm : (chartsTab "yFinance" d choice).mainPrice = some (priceChart d) := by
    simp [chartsTab, hclose, ChartsView.mainPrice]
  have hohlc : (ohlcPresent d = true) ↔
      (d.hasCol "Open" = true ∧ d.hasCol "High" = true ∧
        d.hasCol "Low" = true ∧ d.hasCol "Close" = true) := by
    simp [ohlcPresent]
  rw [hm]
  constructor
  · rw [← hohlc]
    constructor
    · intro h
      by_contra hn
      have hfalse : ohlcPresent d = false := by
        cases hb : ohlcPresent d
        · rfl
        · exact absurd hb hn
      rw [priceChart, hfalse] at h
      simp at h
    · intro h
      simp [priceChart, h]
  · intro hn
    rw [← hohlc] at hn
    have hfalse : ohlcPresent d = false := by
      cases hb : ohlcPresent d
      · rfl
      · exact absurd hb hn
    simp [priceChart, hfalse]

/-- Witness for C1 at a concrete OHLCV frame. -/
theorem C1_ohlc_dispatch_witness :
    ((chartsTab "yFinance" yfSample ⟨.line, none, none, none⟩).mainPrice =
        some (.candlestick "Date" "Open" "High" "Low" "Close") ↔
      (yfSample.hasCol "Open" = true ∧ yfSample.hasCol "High" = true ∧
        yfSample.hasCol "Low" = true ∧ yfSample.hasCol "Close" = true)) ∧
    (¬(yfSample.hasCol "Open" = true ∧ yfSample.hasCol "High" = true ∧
        yfSample.hasCol "Low" = true ∧ yfSample.hasCol "Close" = true) →
      (chartsTab "yFinance" yfSample ⟨.line, none, none, none⟩).mainPrice =
        some (.closeLine "Date" "Close")) :=
  C1_ohlc_dispatch yfSample ⟨.line, none, none, none⟩ (by decide)

/-! ## C4: classification is total and deterministic -/

/-- C4: column classification is total and deterministic: every column of a
Dataset receives exactly one of the four tags, the tag agrees with the
`select_dtypes` partition the app computes (membership in exactly one of the
numeric/datetime/object/unsupported column lists), and classifying the same
unchanged Dataset twice yields the same mapping (in this pure embedding the
classification is a function of the Dataset, so determinism is reflexivity). -/
theorem C4_classification_total (d : Dataset) (c : Column) (hc : c ∈ d.cols) :
    (∃! t : Tag, columnTag c = t) ∧
    (columnTag c = .Numeric ↔ c ∈ numericColumns d) ∧
    (columnTag c = .Temporal ↔ c ∈ datetimeColumns d) ∧
    (columnTag c = .Categorical ↔ c ∈ objectColumns d) ∧
    (columnTag c = .Unsupported ↔ c ∈ unsupportedColumns d) ∧
    classifyDataset d = classifyDataset d := by
  refine ⟨⟨columnTag c, rfl, fun t ht => ht.symm⟩, ?_, ?_, ?_, ?_, rfl⟩ <;>
    cases hd : c.dtype <;>
      simp [numericColumns, datetimeColumns, objectColumns, unsupportedColumns,
        List.mem_filter, hc, columnTag, hd]

/-- Witness for C4 at a concrete column of a concrete Dataset. -/
theorem C4_classification_total_witness :
    (∃! t : Tag, columnTag { name := "A", dtype := .number, values := [.vnum 1, .vnum 2] } = t) ∧
    (columnTag { name := "A", dtype := .number, values := [.vnum 1, .vnum 2] } = .Numeric ↔
      { name := "A", dtype := .number, values := [.vnum 1, .vnum 2] } ∈ numericColumns twoNumeric) ∧
    (columnTag { name := "A", dtype := .number, values := [.vnum 1, .vnum 2] } = .Temporal ↔
      { name := "A", dtype := .number, values := [.vnum 1, .vnum 2] } ∈ datetimeColumns twoNumeric) ∧
    (columnTag { name := "A", dtype := .number, values := [.vnum 1, .vnum 2] } = .Categorical ↔
      { name := "A", dtype := .number, values := [.vnum 1, .vnum 2] } ∈ objectColumns twoNumeric) ∧
    (columnTag { name := "A", dtype := .number, values := [.vnum 1, .vnum 2] } = .Unsupported ↔
      { name := "A", dtype := .number, values := [.vnum 1, .vnum 2] } ∈ unsupportedColumns twoNumeric) ∧
    classifyDataset twoNumeric = classifyDataset twoNumeric :=
  C4_classification_total twoNumeric _ (by decide)

/-! ## C5: default axis columns in the generic chart builder -/

/-- C5 counterexample: on a frame with two numeric columns and no temporal
column, the default `y_column` is the first numeric column `A`, and the
claimed default `x_column` ("the first Numeric column other than `y_column`")
would be `B`; but the x-axis selectbox options are
`datetime_cols + numeric_cols + object_cols`, so its default (index 0) is
`A` — the same column as `y_column`, refuting the claim. -/
theorem C5_default_axis_cex :
    defaultYColumn twoNumeric = some "A" ∧
    datetimeCols twoNumeric = [] ∧
    numericCols twoNumeric = ["A", "B"] ∧
    claimedDefaultXColumn twoNumeric = some "B" ∧
    defaultXColumn twoNumeric = some "A" ∧
    defaultXColumn twoNumeric ≠ claimedDefaultXColumn twoNumeric := by decide

/-- C5 amended: when numeric columns exist and the user has made no choice,
the default `y_column` is the first Numeric column, and the default
`x_column` is the first Temporal column if one exists, else the first
Numeric column — which is the same column as the default `y_column`, not a
different one. -/
theorem C5_default_axis_amended (d : Dataset) (hn : numericCols d ≠ []) :
    defaultYColumn d = (numericCols d).head? ∧
    (datetimeCols d ≠ [] → defaultXColumn d = (datetimeCols d).head?) ∧
    (datetimeCols d = [] → defaultXColumn d = (numericCols d).head? ∧
      defaultXColumn d = defaultYColumn d) := by
  refine ⟨rfl, ?_, ?_⟩
  · intro h
    unfold defaultXColumn xOptions
    cases hd : datetimeCols d with
    | nil => exact absurd hd h
    | cons t rest => simp [hd]
  · intro h
    unfold defaultXColumn xOptions defaultYColumn
    rw [h]
    cases hn2 : numericCols d with
    | nil => exact absurd hn2 hn
    | cons y rest => simp

/-- Witness for the amended C5 at a concrete frame. -/
theorem C5_default_axis_witness :
    defaultYColumn twoNumeric = (numericCols twoNumeric).head? ∧
    (datetimeCols twoNumeric ≠ [] → defaultXColumn twoNumeric = (datetimeCols twoNumeric).head?) ∧
    (datetimeCols twoNumeric = [] → defaultXColumn twoNumeric = (numericCols twoNumeric).head? ∧
      defaultXColumn twoNumeric = defaultYColumn twoNumeric) :=
  C5_default_axis_amended twoNumeric (by decide)

/-! ## C6: the no-numeric-columns condition of the generic branch -/

/-- C6: in the generic chart-dispatch branch (source not yFinance, or no
`Close` column), the "no numeric columns" notice is emitted if and only if
the Dataset has zero Numeric columns, and with at least one Numeric column
the generic chart is built instead.  The notice is an `st.info` call, not an
exception: `chartsTab` is a total function, so the session survives it. -/
theorem C6_no_numeric_columns (dataSource : String) (d : Dataset) (choice : UserChoice)
    (hbranch : ¬(dataSource = "yFinance" ∧ d.hasCol "Close" = true)) :
    (chartsTab dataSource d choice = .noNumericColumnsInfo ↔ numericCols d = []) ∧
    (numericCols d ≠ [] →
      chartsTab dataSource d choice = .generic (genericChart d choice)) := by
  have hcond : (dataSource == "yFinance" && d.hasCol "Close") = false := by
    cases hs : (dataSource == "yFinance")
    · simp
    · have hds : dataSource = "yFinance" := by simpa using hs
      cases hcl : d.hasCol "Close"
      · simp
      · exact absurd ⟨hds, hcl⟩ hbranch
  constructor
  · constructor
    · intro h
      by_contra hne
      have hemp : (numericCols d).isEmpty = false := by
        cases hx : numericCols d with
        | nil => exact absurd hx hne
        | cons a l => simp
      rw [chartsTab, hcond] at h
      simp [hemp] at h
    · intro h
      rw [chartsTab, hcond]
      simp [h]
  · intro h
    have hemp : (numericCols d).isEmpty = false := by
      cases hx : numericCols d with
      | nil => exact absurd hx h
      | cons a l => simp
    rw [chartsTab, hcond]
    simp [hemp]

/-- Witness for C6 at a CSV-sourced frame with numeric columns. -/
theorem C6_no_numeric_columns_witness :
    (chartsTab "CSV" twoNumeric ⟨.bar, none, none, none⟩ = .noNumericColumnsInfo ↔
      numericCols twoNumeric = []) ∧
    (numericCols twoNumeric ≠ [] →
      chartsTab "CSV" twoNumeric ⟨.bar, none, none, none⟩ =
        .generic (genericChart twoNumeric ⟨.bar, none, none, none⟩)) :=
  C6_no_numeric_columns "CSV" twoNumeric ⟨.bar, none, none, none⟩ (by decide)

/-! ## C2: JSON API ingestion shapes -/

/-- C3 counterexample: a successful yFinance fetch that returns a zero-row
frame is dropped by the fetch button handler itself (`not df.empty`): the
session keeps `df = None`, the empty Dataset is never passed on, and the
rendered view is the plain welcome screen with no Validator warning —
contradicting "the empty Dataset is passed on and it is the Validator that
surfaces it".  Moreover `validate_dataframe` also returns false on a frame
with rows but zero columns, refuting the claimed "false exactly when absent
or zero rows". -/
theorem C3_empty_fetch_cex :
    step initialState (.fetchYFinance "AAPL" "1mo" (.ok yfEmpty)) = initialState ∧
    (run initialState [.fetchYFinance "AAPL" "1mo" (.ok yfEmpty)]).df = none ∧
    mainView (run initialState [.fetchYFinance "AAPL" "1mo" (.ok yfEmpty)]) = .welcome ∧
    validate_dataframe (some oneRowNoCols) = false ∧
    some oneRowNoCols ≠ (none : Option Dataset) ∧
    oneRowNoCols.nrows ≠ 0 := by decide

/-- C3 amended: an empty TimeSeries result is not an error at the adapter
layer, but the fetch handler discards it without storing (so the Validator
never sees it and no warning is signalled for it); the Validator returns
false exactly when the Dataset is absent, has zero rows, or has zero
columns; and the dashboard (downstream components) renders exactly when
validation passes. -/
theorem C3_empty_result_amended :
    (∀ (s : SessionState) (t p : String) (d : Dataset), d.isEmpty = true →
      step s (.fetchYFinance t p (.ok d)) = s) ∧
    (∀ df : Option Dataset,
      validate_dataframe df = false ↔
        (df = none ∨ ∃ d, df = some d ∧ (d.nrows = 0 ∨ d.cols = []))) ∧
    (∀ s : SessionState, mainView s = .dashboard ↔ validate_dataframe s.df = true) := by
  refine ⟨?_, ?_, ?_⟩
  · intro s t p d h
    simp [step, handleYFinanceFetch, h]
  · intro df
    cases df with
    | none => simp [validate_dataframe]
    | some d =>
      simp only [validate_dataframe, Bool.not_eq_false']
      constructor
      · intro h
        refine Or.inr ⟨d, rfl, ?_⟩
        have := h
        simp only [Dataset.isEmpty, Bool.or_eq_true, decide_eq_true_eq,
          List.isEmpty_iff] at this
        exact this
      · intro h
        rcases h with h | ⟨d', hd', h⟩
        · exact absurd h (by simp)
        · obtain rfl : d = d' := Option.some.inj hd'
          simp only [Dataset.isEmpty, Bool.or_eq_true, decide_eq_true_eq,
            List.isEmpty_iff]
          exact h
  · intro s
    cases hdf : s.df with
    | none => simp [mainView, hdf, validate_dataframe]
    | some d =>
      simp only [mainView, hdf]
      cases hv : validate_dataframe (some d) <;> simp [hv]

/-- Witness for the amended C3: the handler drop applied at a concrete empty
fetch result. -/
theorem C3_empty_result_witness :
    yfEmpty.isEmpty = true ∧
    step initialState (.fetchYFinance "IBM" "5d" (.ok yfEmpty)) = initialState :=
  ⟨by decide, C3_empty_result_amended.1 initialState "IBM" "5d" yfEmpty (by decide)⟩

/-! ## C7: failed ingestion attempts leave the session unchanged -/

/-- C7: ingestion failures are atomic with respect to session state: any
event whose fetch/parse attempt failed — fetch errors on the yFinance path,
timeout/HTTP/unsupported-shape errors on the API path (the composed adapter
outcome), parse errors on the CSV path — leaves the session state, and in
particular the previously loaded Dataset and its source tag, unchanged. -/
theorem C7_failed_ingestion_atomic (s : SessionState) (e : Event) (err : IngestError)
    (he : eventError e = some err) : step s e = s := by
  cases e with
  | fetchYFinance t p r =>
    cases r with
    | ok d => simp [eventError] at he
    | error e' => rfl
  | fetchApi u r =>
    show handleApiFetch s u r = s
    unfold handleApiFetch
    cases hu : (u == "") with
    | true => simp
    | false =>
      cases hf : fetch_api_data r with
      | error e' => simp [hf]
      | ok d =>
        exfalso
        simp [eventError, hf] at he
  | uploadCsv f r =>
    cases r with
    | ok d => simp [eventError] at he
    | error e' => rfl

/-- Witness for C7: a failed CSV parse on a session that already holds a
loaded Dataset. -/
theorem C7_failed_ingestion_atomic_witness :
    eventError (.uploadCsv "data.csv" (.error .parseError)) = some .parseError ∧
    step { df := some twoNumeric, data_source := some "CSV", ticker_data := none }
        (.uploadCsv "data.csv" (.error .parseError)) =
      { df := some twoNumeric, data_source := some "CSV", ticker_data := none } :=
  ⟨by decide,
    C7_failed_ingestion_atomic
      { df := some twoNumeric, data_source := some "CSV", ticker_data := none }
      (.uploadCsv "data.csv" (.error .parseError)) .parseError (by decide)⟩

/-! ## C9: the summary engine -/

/-- C9: the Statistics tab computes descriptive statistics for exactly the
Numeric columns (the reported keys are precisely `numeric_cols`, and every
numeric column's `describe` row is present), and the Pearson correlation
matrix is computed exactly when at least two Numeric columns exist — with
fewer than two it is omitted and no error is raised (the tab is a total
function). -/
theorem C9_summary_engine (d : Dataset) :
    summaryStatKeys (summaryTab d) = numericCols d ∧
    (∀ c ∈ d.cols, c.dtype = DType.number →
      (c.name, describeColumn c) ∈ (summaryTab d).stats.getD []) ∧
    ((summaryTab d).corr = none ↔ (numericCols d).length < 2) := by
  by_cases hn : (numericCols d).isEmpty = true
  · have hnil : numericCols d = [] := List.isEmpty_iff.mp hn
    refine ⟨?_, ?_, ?_⟩
    · simp [summaryTab, hn, summaryStatKeys, hnil]
    · intro c hc hdt
      exfalso
      have hmem : c.name ∈ numericCols d :=
        List.mem_map_of_mem _ (List.mem_filter.mpr ⟨hc, by simp [hdt]⟩)
      rw [hnil] at hmem
      cases hmem
    · simp [summaryTab, hn, hnil]
  · have hif : ¬((numericCols d).isEmpty = true) := hn
    refine ⟨?_, ?_, ?_⟩
    · rw [summaryTab, if_neg hif]
      simp only [summaryStatKeys, Option.getD_some, List.map_map]
      rfl
    · intro c hc hdt
      have hmem : c ∈ numericColumns d := List.mem_filter.mpr ⟨hc, by simp [hdt]⟩
      rw [summaryTab, if_neg hif]
      simp only [Option.getD_some]
      exact List.mem_map_of_mem _ hmem
    · rw [summaryTab, if_neg hif]
      by_cases h2 : (numericCols d).length > 1
      · rw [if_pos h2]
        exact ⟨fun h => Option.noConfusion h, fun h => absurd h (by omega)⟩
      · rw [if_neg h2]
        exact ⟨fun _ => by omega, fun _ => rfl⟩

/-- Witness for C9: the stats row of a concrete numeric column, with the
membership hypotheses discharged at that column. -/
theorem C9_summary_engine_witness :
    ("A", describeColumn { name := "A", dtype := .number, values := [.vnum 1, .vnum 2] }) ∈
      (summaryTab twoNumeric).stats.getD [] :=
  (C9_summary_engine twoNumeric).2.1
    { name := "A", dtype := .number, values := [.vnum 1, .vnum 2] } (by decide) rfl

/-! ## C10: session-state consistency across loads -/

/-- Helper: one step writes exactly what `storeOf` says, or changes neither
the DataFrame nor the source tag. -/
theorem step_store (s : SessionState) (e : Event) :
    ((step s e).df, (step s e).data_source) =
      (match storeOf e with
       | some p => (some p.1, some p.2)
       | none => (s.df, s.data_source)) := by
  cases e with
  | fetchYFinance t p r =>
    cases r with
    | error err => rfl
    | ok d =>
      simp only [step, handleYFinanceFetch, storeOf]
      cases hd : d.isEmpty <;> simp [hd]
  | fetchApi u r =>
    simp only [step, handleApiFetch, storeOf]
    cases hu : (u == "") with
    | true => simp [hu]
    | false =>
      cases hf : fetch_api_data r with
      | error err => simp [hu, hf]
      | ok d => cases hd : d.isEmpty <;> simp [hu, hf, hd]
  | uploadCsv f r =>
    cases r with
    | error err => rfl
    | ok d => rfl

/-- Helper: a whole session run realizes the last stored pair of its trace,
or keeps the starting DataFrame and source tag when nothing was stored. -/
theorem run_lastStore (tr : List Event) : ∀ s : SessionState,
    ((run s tr).df, (run s tr).data_source) =
      (match lastStore tr with
       | some p => (some p.1, some p.2)
       | none => (s.df, s.data_source)) := by
  induction tr with
  | nil => intro s; rfl
  | cons e rest ih =>
    intro s
    have h1 := ih (step s e)
    have h2 := step_store s e
    show ((run (step s e) rest).df, (run (step s e) rest).data_source) =
      (match lastStore (e :: rest) with
       | some p => (some p.1, some p.2)
       | none => (s.df, s.data_source))
    rw [h1]
    show (match lastStore rest with
          | some p => (some p.1, some p.2)
          | none => ((step s e).df, (step s e).data_source)) = _
    rw [lastStore]
    cases lastStore rest with
    | some p => rfl
    | none => exact h2

/-- C10 counterexample: the claim's "a failed or empty load changes neither"
fails for the CSV path: after a successful yFinance load, uploading a CSV
that parses to a zero-row frame replaces both the stored Dataset and the
source tag (the CSV handler has no emptiness check). -/
theorem C10_empty_csv_cex :
    (step initialState (.fetchYFinance "AAPL" "1mo" (.ok yfSample))).df = some yfSample ∧
    (step initialState (.fetchYFinance "AAPL" "1mo" (.ok yfSample))).data_source =
      some "yFinance" ∧
    emptyCsvFrame.isEmpty = true ∧
    (step (step initialState (.fetchYFinance "AAPL" "1mo" (.ok yfSample)))
        (.uploadCsv "f.csv" (.ok emptyCsvFrame))).df = some emptyCsvFrame ∧
    (step (step initialState (.fetchYFinance "AAPL" "1mo" (.ok yfSample)))
        (.uploadCsv "f.csv" (.ok emptyCsvFrame))).data_source = some "CSV" ∧
    yfSample ≠ emptyCsvFrame := by decide

/-- C10 amended: on every successful load the Dataset and the source-kind
tag are assigned together — over any event trace from the initial session,
the stored DataFrame and source tag are exactly the pair written by the last
storing event (`storeOf` pairs each stored Dataset with the kind of the
handler that stored it), so a present Dataset always carries the kind that
produced it.  Failed loads store nothing; empty yFinance and API results
store nothing; an empty CSV parse result, however, is stored (with kind
CSV).  TimeSeries-specific dispatch (the OHLC/price branch) never fires for
a session whose source tag is not yFinance. -/
theorem C10_session_consistency_amended :
    (∀ tr : List Event,
      (run initialState tr).df = (lastStore tr).map Prod.fst ∧
      (run initialState tr).data_source = (lastStore tr).map Prod.snd) ∧
    (∀ (e : Event) (err : IngestError), eventError e = some err → storeOf e = none) ∧
    (∀ (t p : String) (d : Dataset), d.isEmpty = true →
      storeOf (.fetchYFinance t p (.ok d)) = none) ∧
    (∀ (u : String) (resp : Except IngestError Json) (d : Dataset),
      fetch_api_data resp = .ok d → d.isEmpty = true → storeOf (.fetchApi u resp) = none) ∧
    (∀ (f : String) (d : Dataset), storeOf (.uploadCsv f (.ok d)) = some (d, "CSV")) ∧
    (∀ (src : String) (d : Dataset) (choice : UserChoice) (pc : PriceChart)
      (v : Option String), src ≠ "yFinance" → chartsTab src d choice ≠ .price pc v) := by
  refine ⟨?_, ?_, ?_, ?_, ?_, ?_⟩
  · intro tr
    have h := run_lastStore tr initialState
    cases hl : lastStore tr with
    | some p =>
      rw [hl] at h
      exact ⟨congrArg Prod.fst h, congrArg Prod.snd h⟩
    | none =>
      rw [hl] at h
      exact ⟨congrArg Prod.fst h, congrArg Prod.snd h⟩
  · intro e err he
    cases e with
    | fetchYFinance t p r =>
      cases r with
      | ok d => simp [eventError] at he
      | error e' => rfl
    | fetchApi u r =>
      unfold storeOf
      cases hu : (u == "") with
      | true =>
        have hu' : u = "" := by simpa using hu
        simp [hu']
      | false =>
        cases hf : fetch_api_data r with
        | error e' => simp [hf]
        | ok d =>
          exfalso
          simp [eventError, hf] at he
    | uploadCsv f r =>
      cases r with
      | ok d => simp [eventError] at he
      | error e' => rfl
  · intro t p d h
    simp [storeOf, h]
  · intro u resp d hf h
    unfold storeOf
    cases hu : (u == "") with
    | true =>
      have hu' : u = "" := by simpa using hu
      simp [hu']
    | false => simp [hf, h]
  · intro f d
    rfl
  · intro src d choice pc v hsrc
    have hb : (src == "yFinance") = false := by
      cases hx : (src == "yFinance")
      · rfl
      · exact absurd (by simpa using hx) hsrc
    rw [chartsTab, hb]
    simp only [Bool.false_and, Bool.false_eq_true, if_false]
    cases hx : (numericCols d).isEmpty <;> simp [hx]

/-! ## C8: CSV ingest / export round trip

Helper lemmas: the decimal printer and parser invert each other, indexing
over `List.range` recovers a list, and one ingested column survives a
print-and-reingest cycle unchanged. -/

/-- Helper: digits produced by `Nat.digits 10` are below 10. -/
theorem digit_mem_lt (n : Nat) {d : Nat} (hd : d ∈ Nat.digits 10 n) : d < 10 :=
  Nat.digits_lt_base (by norm_num) hd

/-- Helper: the character of a decimal digit is a digit character. -/
theorem digitChar_isDigit {d : Nat} (hd : d < 10) :
    (Char.ofNat (48 + d)).isDigit = true := by
  interval_cases d <;> decide

/-- Helper: reading a digit character back yields the digit. -/
theorem digitChar_toNat {d : Nat} (hd : d < 10) :
    (Char.ofNat (48 + d)).toNat - 48 = d := by
  interval_cases d <;> decide

/-- Helper: a printed natural number is never the empty string. -/
theorem natChars_ne_nil (n : Nat) : natChars n ≠ [] := by
  unfold natChars
  split
  · simp
  · next h =>
    simp only [ne_eq, List.reverse_eq_nil_iff, List.map_eq_nil_iff]
    exact Nat.digits_ne_nil_iff_ne_zero.mpr h

/-- Helper: a printed natural number consists of digit characters. -/
theorem natChars_all_digit (n : Nat) : (natChars n).all Char.isDigit = true := by
  unfold natChars
  split
  · decide
  · rw [List.all_reverse, List.all_eq_true]
    intro c hc
    rw [List.mem_map] at hc
    obtain ⟨d, hd, rfl⟩ := hc
    exact digitChar_isDigit (digit_mem_lt _ hd)

/-- Helper: parsing a printed natural number recovers it. -/
theorem parseNatDigits?_natChars (n : Nat) : parseNatDigits? (natChars n) = some n := by
  by_cases h0 : n = 0
  · subst h0; decide
  · unfold parseNatDigits?
    rw [if_neg (natChars_ne_nil n), if_pos (natChars_all_digit n)]
    congr 1
    unfold natChars
    rw [if_neg h0]
    rw [List.map_reverse, List.reverse_reverse, List.map_map]
    have hpt : ∀ d ∈ Nat.digits 10 n,
        ((fun c : Char => c.toNat - 48) ∘ (fun d => Char.ofNat (48 + d))) d = id d :=
      fun d hd => digitChar_toNat (digit_mem_lt n hd)
    rw [List.map_congr_left hpt, List.map_id]
    exact Nat.ofDigits_digits 10 n

/-- Helper: parsing a printed integer recovers it. -/
theorem parseIntCell?_intChars (n : Int) : parseIntCell? ⟨intChars n⟩ = some n := by
  by_cases hneg : n < 0
  · have h1 : intChars n = '-' :: natChars n.natAbs := by
      unfold intChars; rw [if_pos hneg]
    rw [h1]
    show (if ('-' : Char) = '-' then
            (parseNatDigits? (natChars n.natAbs)).map (fun m => -(m : Int))
          else (parseNatDigits? ('-' :: natChars n.natAbs)).map (fun m => (m : Int))) =
      some n
    rw [if_pos rfl, parseNatDigits?_natChars]
    show some (-(n.natAbs : Int)) = some n
    congr 1
    omega
  · have h1 : intChars n = natChars n.natAbs := by
      unfold intChars; rw [if_neg hneg]
    obtain ⟨c, cs, hcc⟩ : ∃ c cs, natChars n.natAbs = c :: cs := by
      cases hx : natChars n.natAbs with
      | nil => exact absurd hx (natChars_ne_nil _)
      | cons c cs => exact ⟨c, cs, rfl⟩
    have hdig : c.isDigit = true := by
      have hall := natChars_all_digit n.natAbs
      rw [hcc, List.all_cons, Bool.and_eq_true] at hall
      exact hall.1
    have hcne : ¬(c = '-') := by
      intro h
      subst h
      exact absurd hdig (by decide)
    rw [h1, hcc]
    show (if c = '-' then (parseNatDigits? cs).map (fun m => -(m : Int))
          else (parseNatDigits? (c :: cs)).map (fun m => (m : Int))) = some n
    rw [if_neg hcne, ← hcc, parseNatDigits?_natChars]
    show some ((n.natAbs : Int)) = some n
    congr 1
    omega

/-- Helper: an in-bounds `getD` of a mapped list applies the function. -/
theorem getD_map_lt {α β : Type} (f : α → β) (l : List α) (j : Nat) (hj : j < l.length)
    (b : β) (a : α) : (l.map f).getD j b = f (l.getD j a) := by
  induction l generalizing j with
  | nil => cases hj
  | cons x xs ih =>
    cases j with
    | zero => rfl
    | succ j' => exact ih j' (by simpa using hj)

/-- Helper: mapping over the index range of a list recovers mapping over the
list itself. -/
theorem range_map_getD {α β : Type} (f : α → β) (l : List α) (a : α) :
    (List.range l.length).map (fun i => f (l.getD i a)) = l.map f := by
  induction l with
  | nil => rfl
  | cons x xs ih =>
    show (List.range (xs.length + 1)).map (fun i => f ((x :: xs).getD i a)) =
      f x :: xs.map f
    rw [List.range_succ_eq_map, List.map_cons, List.map_map]
    exact congrArg (List.cons (f x)) ih

/-- Helper: the name an ingested CSV column carries. -/
theorem csvColumn_name (name : String) (cells : List String) :
    (csvColumn name cells).name = name := by
  unfold csvColumn
  split
  · rfl
  · split <;> rfl

/-- Helper: an ingested CSV column has one value per cell. -/
theorem csvColumn_values_length (name : String) (cells : List String) :
    (csvColumn name cells).values.length = cells.length := by
  unfold csvColumn
  split
  · next h => simp [List.isEmpty_iff.mp h]
  · split <;> simp

/-- Helper: printing an ingested CSV column and ingesting the printed cells
reproduces the column: the normalize-print-reparse cycle is stable. -/
theorem csvColumn_roundtrip (name : String) (cells : List String) :
    csvColumn name ((csvColumn name cells).values.map printCsvCell) =
      csvColumn name cells := by
  by_cases he : cells.isEmpty = true
  · have : cells = [] := List.isEmpty_iff.mp he
    subst this
    rfl
  · have hene : cells ≠ [] := fun h => he (by rw [h]; rfl)
    by_cases hnum : csvColIsNumeric cells = true
    · -- numeric column
      have hcol : csvColumn name cells =
          { name := name
            dtype := .number
            values := cells.map (fun s =>
              match parseIntCell? s with
              | some n => Value.vint n
              | none => Value.null) } := by
        unfold csvColumn
        rw [if_neg he, if_pos hnum]
      have hall : ∀ s ∈ cells, (s == "" || (parseIntCell? s).isSome) = true := by
        rw [csvColIsNumeric, List.all_eq_true] at hnum
        exact hnum
      have hpt : ∀ s ∈ cells,
          parseIntCell? (printCsvCell (match parseIntCell? s with
            | some n => Value.vint n
            | none => Value.null)) = parseIntCell? s := by
        intro s hs
        cases hp : parseIntCell? s with
        | some m => exact parseIntCell?_intChars m
        | none => rfl
      rw [hcol]
      simp only [List.map_map]
      have hprinted : ∀ s ∈ cells,
          ((printCsvCell ∘ fun s =>
            match parseIntCell? s with
            | some n => Value.vint n
            | none => Value.null) s == ""
            || (parseIntCell? ((printCsvCell ∘ fun s =>
                 match parseIntCell? s with
                 | some n => Value.vint n
                 | none => Value.null) s)).isSome) = true := by
        intro s hs
        simp only [Function.comp_apply]
        rw [hpt s hs]
        cases hp : parseIntCell? s with
        | some m => simp
        | none =>
          have hse : s = "" := by
            have hx := hall s hs
            rw [hp] at hx
            simpa using hx
          subst hse
          decide
      have hnum' : csvColIsNumeric (cells.map (printCsvCell ∘ fun s =>
          match parseIntCell? s with
          | some n => Value.vint n
          | none => Value.null)) = true := by
        rw [csvColIsNumeric, List.all_eq_true]
        intro x hx
        rw [List.mem_map] at hx
        obtain ⟨s, hs, rfl⟩ := hx
        exact hprinted s hs
      have he' : ¬((cells.map (printCsvCell ∘ fun s =>
          match parseIntCell? s with
          | some n => Value.vint n
          | none => Value.null)).isEmpty = true) := by
        intro hx
        rw [List.isEmpty_iff, List.map_eq_nil_iff] at hx
        exact hene hx
      unfold csvColumn
      rw [if_neg he', if_pos hnum']
      simp only [List.map_map]
      congr 1
      apply List.map_congr_left
      intro s hs
      simp only [Function.comp_apply]
      rw [hpt s hs]
    · -- object column
      have hcol : csvColumn name cells =
          { name := name
            dtype := .object
            values := cells.map (fun s =>
              if s == "" then Value.null else Value.vstr s) } := by
        unfold csvColumn
        rw [if_neg he, if_neg hnum]
      have hprint : ∀ s : String,
          printCsvCell (if s == "" then Value.null else Value.vstr s) = s := by
        intro s
        by_cases hx : s = ""
        · subst hx; rfl
        · have hb : (s == "") = false := by simp [hx]
          rw [hb]
          rfl
      have hback : cells.map (printCsvCell ∘ fun s =>
          if s == "" then Value.null else Value.vstr s) = cells := by
        have hid : ∀ s ∈ cells, (printCsvCell ∘ fun s =>
            if s == "" then Value.null else Value.vstr s) s = id s := by
          intro s _
          simp only [Function.comp_apply, id]
          exact hprint s
        rw [List.map_congr_left hid, List.map_id]
      rw [hcol]
      simp only [List.map_map]
      rw [hback]
      exact hcol

/-- Helper: an in-bounds `getD` picks an element of the list. -/
theorem getD_mem_of_lt {α : Type} {l : List α} {j : Nat} (hj : j < l.length) (a : α) :
    l.getD j a ∈ l := by
  rw [List.getD_eq_getElem l a hj]
  exact List.getElem_mem hj

theorem range_map_getD_id {α : Type} (l : List α) (a : α) :
    (List.range l.length).map (fun i => l.getD i a) = l :=
  (range_map_getD (fun x => x) l a).trans (List.map_id' l)

theorem read_csv_exportCsv_of (d : Dataset)
    (hne : d.cols ≠ [])
    (hnodup : d.colNames.Nodup)
    (hlen : ∀ c ∈ d.cols, c.values.length = d.nrows)
    (hstable : ∀ j, j < d.cols.length →
      csvColumn (d.cols.getD j ⟨"", .object, []⟩).name
          ((d.cols.getD j ⟨"", .object, []⟩).values.map printCsvCell) =
        d.cols.getD j ⟨"", .object, []⟩) :
    read_csv (exportCsv d) = .ok d := by
  have hnames_ne : d.colNames ≠ [] := by
    intro h
    exact hne (by simpa [Dataset.colNames] using h)
  have hv2 : CsvValid (d.colNames :: (List.range d.nrows).map (fun i =>
      d.cols.map (fun c => printCsvCell (c.values.getD i Value.null)))) := by
    refine ⟨hnames_ne, hnodup, ?_⟩
    intro r hr
    rw [List.mem_map] at hr
    obtain ⟨i, _, rfl⟩ := hr
    simp [Dataset.colNames]
  rw [exportCsv, read_csv, if_pos hv2]
  congr 1
  have hlen2 : d.colNames.length = d.cols.length := by simp [Dataset.colNames]
  have hcols : (List.range d.colNames.length).map (fun j =>
      csvColumn (d.colNames.getD j "")
        (((List.range d.nrows).map (fun i =>
          d.cols.map (fun c => printCsvCell (c.values.getD i Value.null)))).map
          (fun r => r.getD j ""))) = d.cols := by
    rw [hlen2]
    have hpt : ∀ j ∈ List.range d.cols.length,
        csvColumn (d.colNames.getD j "")
          (((List.range d.nrows).map (fun i =>
            d.cols.map (fun c => printCsvCell (c.values.getD i Value.null)))).map
            (fun r => r.getD j "")) =
          d.cols.getD j ⟨"", .object, []⟩ := by
      intro j hj
      have hjlt : j < d.cols.length := List.mem_range.mp hj
      have hname : d.colNames.getD j "" = (d.cols.getD j ⟨"", .object, []⟩).name := by
        show (d.cols.map Column.name).getD j "" = _
        exact getD_map_lt Column.name d.cols j hjlt "" ⟨"", .object, []⟩
      have hcells : ((List.range d.nrows).map (fun i =>
            d.cols.map (fun c => printCsvCell (c.values.getD i Value.null)))).map
            (fun r => r.getD j "") =
          (d.cols.getD j ⟨"", .object, []⟩).values.map printCsvCell := by
        rw [List.map_map]
        have hpt2 : ∀ i ∈ List.range d.nrows,
            ((fun r : List String => r.getD j "") ∘ (fun i =>
              d.cols.map (fun c => printCsvCell (c.values.getD i Value.null)))) i =
            (fun i => printCsvCell
              ((d.cols.getD j ⟨"", .object, []⟩).values.getD i Value.null)) i := by
          intro i _
          exact getD_map_lt (fun c => printCsvCell (c.values.getD i Value.null))
            d.cols j hjlt "" ⟨"", .object, []⟩
        rw [List.map_congr_left hpt2]
        have hvl : (d.cols.getD j ⟨"", .object, []⟩).values.length = d.nrows :=
          hlen _ (getD_mem_of_lt hjlt _)
        rw [← hvl]
        exact range_map_getD printCsvCell (d.cols.getD j ⟨"", .object, []⟩).values Value.null
      rw [hname, hcells]
      exact hstable j hjlt
    rw [List.map_congr_left hpt]
    exact range_map_getD_id d.cols ⟨"", .object, []⟩
  have hnr : ((List.range d.nrows).map (fun i =>
      d.cols.map (fun c => printCsvCell (c.values.getD i Value.null)))).length = d.nrows := by
    simp
  rw [hcols, hnr]

/-- C8: CSV ingestion round-trips with export: ingesting a valid tokenized
CSV stream with a header row, exporting the resulting Dataset with
`to_csv(index=False)` (all columns selected), and re-ingesting the exported
text yields a Dataset identical to the first — same columns, same values,
same row count (literal equality of the Datasets). -/
theorem C8_csv_roundtrip (rows : List (List String)) (d : Dataset)
    (hd : read_csv rows = .ok d) :
    read_csv (exportCsv d) = .ok d := by
  cases rows with
  | nil => exact Except.noConfusion hd
  | cons header body =>
    rw [read_csv] at hd
    by_cases hv : CsvValid (header :: body)
    · rw [if_pos hv] at hd
      obtain ⟨hh, hnodup, hrect⟩ := hv
      have hdd : d =
          { cols := (List.range header.length).map (fun j =>
              csvColumn (header.getD j "") (body.map (fun r => r.getD j ""))),
            nrows := body.length } := (Except.ok.inj hd).symm
      subst hdd
      have hnames :
          ({ cols := (List.range header.length).map (fun j =>
              csvColumn (header.getD j "") (body.map (fun r => r.getD j ""))),
             nrows := body.length } : Dataset).colNames = header := by
        show ((List.range header.length).map (fun j =>
          csvColumn (header.getD j "") (body.map (fun r => r.getD j "")))).map
            Column.name = header
        rw [List.map_map]
        have hpt : ∀ j ∈ List.range header.length,
            (Column.name ∘ fun j =>
              csvColumn (header.getD j "") (body.map (fun r => r.getD j ""))) j =
            (fun j => header.getD j "") j := by
          intro j _
          exact csvColumn_name (header.getD j "") (body.map (fun r => r.getD j ""))
        rw [List.map_congr_left hpt]
        exact range_map_getD_id header ""
      apply read_csv_exportCsv_of
      · show (List.range header.length).map (fun j =>
            csvColumn (header.getD j "") (body.map (fun r => r.getD j ""))) ≠ []
        simp only [ne_eq, List.map_eq_nil_iff, List.range_eq_nil]
        intro h
        exact hh (List.length_eq_zero.mp h)
      · rw [hnames]
        exact hnodup
      · intro c hc
        rw [List.mem_map] at hc
        obtain ⟨j, hj, rfl⟩ := hc
        show (csvColumn (header.getD j "") (body.map (fun r => r.getD j ""))).values.length =
          body.length
        rw [csvColumn_values_length]
        simp
      · intro j hj
        have hjlt : j < header.length := by simpa using hj
        have hget :
            ({ cols := (List.range header.length).map (fun j =>
                csvColumn (header.getD j "") (body.map (fun r => r.getD j ""))),
               nrows := body.length } : Dataset).cols.getD j ⟨"", .object, []⟩ =
            csvColumn (header.getD j "") (body.map (fun r => r.getD j "")) := by
          show ((List.range header.length).map (fun j =>
            csvColumn (header.getD j "") (body.map (fun r => r.getD j "")))).getD j
              ⟨"", .object, []⟩ = _
          rw [getD_map_lt (fun j => csvColumn (header.getD j "")
              (body.map (fun r => r.getD j ""))) (List.range header.length) j
              (by simpa using hjlt) ⟨"", .object, []⟩ 0]
          have hrj : (List.range header.length).getD j 0 = j := by
            rw [List.getD_eq_getElem (List.range header.length) 0 (by simpa using hjlt)]
            exact List.getElem_range _ _
          rw [hrj]
        rw [hget, csvColumn_name]
        exact csvColumn_roundtrip (header.getD j "") (body.map (fun r => r.getD j ""))
    · rw [if_neg hv] at hd
      exact Except.noConfusion hd

/-- Witness for C8 at a concrete CSV: a numeric column and a text column
with a missing cell. -/
theorem C8_csv_roundtrip_witness :
    read_csv [["a", "b"], ["1", "x"], ["2", ""]] =
      .ok { cols := [{ name := "a", dtype := .number, values := [.vint 1, .vint 2] },
                     { name := "b", dtype := .object, values := [.vstr "x", .null] }],
            nrows := 2 } ∧
    read_csv (exportCsv
      { cols := [{ name := "a", dtype := .number, values := [.vint 1, .vint 2] },
                 { name := "b", dtype := .object, values := [.vstr "x", .null] }],
        nrows := 2 }) =
      .ok { cols := [{ name := "a", dtype := .number, values := [.vint 1, .vint 2] },
                     { name := "b", dtype := .object, values := [.vstr "x", .null] }],
            nrows := 2 } :=
  ⟨by decide, C8_csv_roundtrip [["a", "b"], ["1", "x"], ["2", ""]] _ (by decide)⟩

/-- Witness for the amended C10: a concrete two-event trace, and the price
branch refuted at a concrete non-yFinance source. -/
theorem C10_session_consistency_witness :
    ((run initialState [.fetchYFinance "AAPL" "1mo" (.ok yfSample),
        .uploadCsv "g.csv" (.error .parseError)]).df =
      (lastStore [.fetchYFinance "AAPL" "1mo" (.ok yfSample),
        .uploadCsv "g.csv" (.error .parseError)]).map Prod.fst) ∧
    chartsTab "API" twoNumeric ⟨.scatter, none, none, none⟩ ≠
      .price (.closeLine "Date" "Close") none :=
  ⟨(C10_session_consistency_amended.1 _).1,
    C10_session_consistency_amended.2.2.2.2.2 "API" twoNumeric ⟨.scatter, none, none, none⟩
      (.closeLine "Date" "Close") none (by decide)⟩

end FinDash
